import Mathlib

/-!
Verification of the architecture-specific context-switching layer of the
`axcpu` crate (aarch64 and loongarch64 backends, `src/aarch64/context.rs` and
`src/loongarch64/context.rs`).

Shallow embedding conventions:
* machine words (`u64`/`usize`/`u128`) are modelled as `Nat`; the code never
  performs arithmetic on the register values it moves, so no wrap-around
  modelling is required;
* the `VirtAddr`/`PhysAddr` wrappers of the `memory_addr` crate are plain
  newtypes over `usize`; their payload is modelled directly as `Nat`
  (`as_usize` is the identity on the payload);
* the three cargo features (`tls`, `fp-simd`, `uspace`) become a `Config`
  record of booleans; fields that are `#[cfg]`-gated in the source are always
  present in the Lean structures while the behaviour that the source gates is
  guarded by the corresponding flag, matching the "single struct with all
  optional sub-blocks plus a capability descriptor" reading;
* the hardware primitives used by `switch_to` (thread-pointer read/write,
  page-table-root install, TLB flush, kernel-sp write) act on an explicit
  `Machine` record of live registers, and every such action is also recorded
  in an `Event` trace in program order, so that ordering and counting
  properties can be stated.
-/

set_option maxHeartbeats 1000000
set_option maxRecDepth 8192

namespace Axcpu

/-- Build-time cargo features of the crate: `tls` (thread-pointer tracking),
`fp-simd` (extended register state) and `uspace` (address-space isolation). -/
structure Config where
  tls : Bool
  fpSimd : Bool
  uspace : Bool
deriving DecidableEq

/-- Hardware side effects performed by `switch_to`, recorded in program order:
reading/writing the live thread-pointer register, saving/restoring the
extended (FP/SIMD) register file, installing a page-table root, flushing the
whole TLB, writing the kernel stack pointer (loongarch64 only), and the final
raw register-transfer routine `context_switch`. -/
inductive Event where
  | readTP : Event
  | writeTP : Nat → Event
  | fpSave : Event
  | fpRestore : Event
  | writeRoot : Nat → Event
  | flushTLB : Event
  | writeKernelSP : Nat → Event
  | rawTransfer : Event
deriving DecidableEq

/-- True exactly on page-table-root install events. -/
def Event.isRootWrite : Event → Bool
  | .writeRoot _ => true
  | _ => false

/-- True exactly on whole-TLB flush events. -/
def Event.isFlush : Event → Bool
  | .flushTLB => true
  | _ => false

/-- Rendering of the Rust format specifier `{:#x}` on an unsigned integer:
`0x` followed by lowercase hexadecimal digits. -/
def hexStr (n : Nat) : String := "0x" ++ String.mk (Nat.toDigits 16 n)

/-- Concatenation of a list of strings, in order (the output of a sequence of
`writeln!` calls). -/
def concatAll : List String → String
  | [] => ""
  | s :: rest => s ++ concatAll rest

/-- Comma-separated concatenation, as the derived `Debug` renders the fields
of a struct: separator `", "` between items, none after the last. -/
def joinComma : List String → String
  | [] => ""
  | [s] => s
  | s :: rest => s ++ ", " ++ joinComma rest

namespace AArch64

/-- FP & SIMD registers (`FpState` in `src/aarch64/context.rs`): the 128-bit
registers V0..V31 plus FPCR and FPSR. -/
structure FpState where
  regs : Fin 32 → Nat
  fpcr : Nat
  fpsr : Nat

/-- All-zero `FpState` (the `Default` derivation). -/
def FpState.zero : FpState := ⟨fun _ => 0, 0, 0⟩

/-- `TaskContext` of the aarch64 backend.  `repr(C)` field order (one 64-bit
word each): `sp` (word 0), `tpidr_el0` (word 1), `r19`..`r29` (words 2..12),
`lr` = r30 (word 13); then the `uspace`-gated `ttbr0_el1` and the
`fp-simd`-gated `fp_state`, both modelled unconditionally (see file header). -/
structure TaskContext where
  sp : Nat
  tpidr_el0 : Nat
  r19 : Nat
  r20 : Nat
  r21 : Nat
  r22 : Nat
  r23 : Nat
  r24 : Nat
  r25 : Nat
  r26 : Nat
  r27 : Nat
  r28 : Nat
  r29 : Nat
  lr : Nat
  ttbr0_el1 : Nat
  fp_state : FpState

/-- `TaskContext::new` / `Default`: an all-zero context. -/
def TaskContext.new : TaskContext :=
  ⟨0, 0, 0, 0, 0, 0, 0, 0, 0, 0, 0, 0, 0, 0, 0, FpState.zero⟩

/-- `TaskContext::init(entry, kstack_top, tls_area)`: sets `sp`, `lr` and
`tpidr_el0`; the source method is not feature-gated and writes `tpidr_el0`
unconditionally. -/
def TaskContext.init (self : TaskContext) (entry kstack_top tls_area : Nat) :
    TaskContext :=
  { self with sp := kstack_top, lr := entry, tpidr_el0 := tls_area }

/-- `TaskContext::set_page_table_root(ttbr0_el1)` (gated by `uspace` in the
source): overwrites only the page-table-root field. -/
def TaskContext.set_page_table_root (self : TaskContext) (ttbr0_el1 : Nat) :
    TaskContext :=
  { self with ttbr0_el1 := ttbr0_el1 }

/-- Live CPU registers that the aarch64 backend touches: the callee-saved
registers x19..x29, x30 (= lr), the stack pointer, TPIDR_EL0, the FP/SIMD
register file and TTBR0_EL1. -/
structure Machine where
  x19 : Nat
  x20 : Nat
  x21 : Nat
  x22 : Nat
  x23 : Nat
  x24 : Nat
  x25 : Nat
  x26 : Nat
  x27 : Nat
  x28 : Nat
  x29 : Nat
  x30 : Nat
  sp : Nat
  tpidr_el0 : Nat
  fp : FpState
  ttbr0_el1 : Nat

/-- The naked `context_switch` routine of the aarch64 backend, word offsets
taken from the store/load instructions (`stp ra, rb, [x0, k * 8]` writes words
k and k+1 of the save target):

* `stp x29, x30, [x0, 12*8]` — words 12, 13 = `r29`, `lr`;
* `stp x27, x28, [x0, 10*8]` … `stp x19, x20, [x0, 2*8]` — words 10..11, 8..9,
  6..7, 4..5, 2..3 = `r27`..`r28` down to `r19`..`r20`;
* `mov x19, sp` then `stp x19, x20, [x0]` — word 0 = the live `sp`, and word 1
  (the `tpidr_el0` field) = the live `x20` (this second store is literal in
  the source);
* restore side: `ldp x19, x20, [x1]` loads word 0 into x19 (moved into sp) and
  word 1 into x20, which the following `ldp x19, x20, [x1, 2*8]` immediately
  overwrites with `r19`/`r20`, so the net effect on the machine is
  `sp := next.sp`, `x19..x30 := next.r19..next.lr`. -/
def context_switch (current_task next_task : TaskContext) (m : Machine) :
    TaskContext × Machine :=
  let saved : TaskContext :=
    { current_task with
      r29 := m.x29, lr := m.x30,
      r27 := m.x27, r28 := m.x28,
      r25 := m.x25, r26 := m.x26,
      r23 := m.x23, r24 := m.x24,
      r21 := m.x21, r22 := m.x22,
      r19 := m.x19, r20 := m.x20,
      sp := m.sp,
      tpidr_el0 := m.x20 }
  let restored : Machine :=
    { m with
      sp := next_task.sp,
      x19 := next_task.r19, x20 := next_task.r20,
      x21 := next_task.r21, x22 := next_task.r22,
      x23 := next_task.r23, x24 := next_task.r24,
      x25 := next_task.r25, x26 := next_task.r26,
      x27 := next_task.r27, x28 := next_task.r28,
      x29 := next_task.r29, x30 := next_task.lr }
  (saved, restored)

/-- `TaskContext::switch_to(self, next_ctx)` of the aarch64 backend.  Program
order in the source: the `tls` block (save live TPIDR_EL0 into `self`, write
`next_ctx`'s value to the live register), the `fp-simd` block (save hardware
FP state into `self.fp_state`, restore `next_ctx.fp_state` to hardware), the
`uspace` block (iff the stored roots differ: install `next_ctx.ttbr0_el1` and
flush the entire TLB), then `context_switch`.  Returns the updated `self`, the
machine after the switch, and the event trace. -/
def switch_to (cfg : Config) (self next_ctx : TaskContext) (m : Machine) :
    TaskContext × Machine × List Event :=
  let s1 := if cfg.tls then { self with tpidr_el0 := m.tpidr_el0 } else self
  let m1 := if cfg.tls then { m with tpidr_el0 := next_ctx.tpidr_el0 } else m
  let t1 : List Event :=
    if cfg.tls then [Event.readTP, Event.writeTP next_ctx.tpidr_el0] else []
  let s2 := if cfg.fpSimd then { s1 with fp_state := m1.fp } else s1
  let m2 := if cfg.fpSimd then { m1 with fp := next_ctx.fp_state } else m1
  let t2 : List Event :=
    if cfg.fpSimd then [Event.fpSave, Event.fpRestore] else []
  let m3 :=
    if cfg.uspace && (s2.ttbr0_el1 != next_ctx.ttbr0_el1) then
      { m2 with ttbr0_el1 := next_ctx.ttbr0_el1 }
    else m2
  let t3 : List Event :=
    if cfg.uspace && (s2.ttbr0_el1 != next_ctx.ttbr0_el1) then
      [Event.writeRoot next_ctx.ttbr0_el1, Event.flushTLB]
    else []
  let r := context_switch s2 next_ctx m3
  (r.1, r.2, t1 ++ t2 ++ t3 ++ [Event.rawTransfer])

/-- Saved registers of the aarch64 backend when a trap occurs (`TrapFrame`):
general-purpose registers R0..R30, the user stack pointer SP_EL0, ELR_EL1 and
SPSR_EL1. -/
structure TrapFrame where
  r : Fin 31 → Nat
  usp : Nat
  elr : Nat
  spsr : Nat

/-- `TrapFrame::arg0`: `self.r[0] as usize` (the cast is the identity on the
64-bit targets of this crate). -/
def TrapFrame.arg0 (self : TrapFrame) : Nat := self.r 0

/-- `TrapFrame::arg1`: `self.r[1] as usize`. -/
def TrapFrame.arg1 (self : TrapFrame) : Nat := self.r 1

/-- `TrapFrame::arg2`: `self.r[2] as usize`. -/
def TrapFrame.arg2 (self : TrapFrame) : Nat := self.r 2

/-- `TrapFrame::arg3`: `self.r[3] as usize`. -/
def TrapFrame.arg3 (self : TrapFrame) : Nat := self.r 3

/-- `TrapFrame::arg4`: `self.r[4] as usize`. -/
def TrapFrame.arg4 (self : TrapFrame) : Nat := self.r 4

/-- `TrapFrame::arg5`: `self.r[5] as usize`. -/
def TrapFrame.arg5 (self : TrapFrame) : Nat := self.r 5

/-- Register name/value pairs in the order printed by the hand-written
`fmt::Debug` impl for the aarch64 `TrapFrame`: the loop over `self.r` (names
`r0`..`r30`), then `usp`, `elr`, `spsr`. -/
def trapFrameFields (tf : TrapFrame) : List (String × Nat) :=
  (List.finRange 31).map (fun i => ("r" ++ toString i.val, tf.r i))
    ++ [("usp", tf.usp), ("elr", tf.elr), ("spsr", tf.spsr)]

/-- Output of the hand-written `fmt::Debug` impl for the aarch64 `TrapFrame`:
a header line, one `    name: 0x…,` line per register (each `writeln!` uses
the `{:#x}` specifier), and a closing brace. -/
def trapFrameFmt (tf : TrapFrame) : String :=
  "TrapFrame: \x7b\n"
    ++ concatAll ((trapFrameFields tf).map
        (fun p => "    " ++ p.1 ++ ": " ++ hexStr p.2 ++ ",\n"))
    ++ "\x7d"

end AArch64

namespace LoongArch64

/-- Floating-point registers of LoongArch64 (`FpuState`): f0..f31, the eight
condition-code bytes FCC and the control/status register FCSR. -/
structure FpuState where
  fp : Fin 32 → Nat
  fcc : Fin 8 → Nat
  fcsr : Nat

/-- All-zero `FpuState` (the `Default` derivation). -/
def FpuState.zero : FpuState := ⟨fun _ => 0, fun _ => 0, 0⟩

/-- `TaskContext` of the loongarch64 backend.  `repr(C)` word offsets: `ra`
(word 0), `sp` (word 1), `s[0]`..`s[9]` (words 2..11), `tp` (word 12); then
the `uspace`-gated `pgdl` and the `fp-simd`-gated `fpu`, both modelled
unconditionally (see file header). -/
structure TaskContext where
  ra : Nat
  sp : Nat
  s : Fin 10 → Nat
  tp : Nat
  pgdl : Nat
  fpu : FpuState

/-- General registers of LoongArch64, in the `repr(C)` declaration order of
the source. -/
structure GeneralRegisters where
  zero : Nat
  ra : Nat
  tp : Nat
  sp : Nat
  a0 : Nat
  a1 : Nat
  a2 : Nat
  a3 : Nat
  a4 : Nat
  a5 : Nat
  a6 : Nat
  a7 : Nat
  t0 : Nat
  t1 : Nat
  t2 : Nat
  t3 : Nat
  t4 : Nat
  t5 : Nat
  t6 : Nat
  t7 : Nat
  t8 : Nat
  u0 : Nat
  fp : Nat
  s0 : Nat
  s1 : Nat
  s2 : Nat
  s3 : Nat
  s4 : Nat
  s5 : Nat
  s6 : Nat
  s7 : Nat
  s8 : Nat

/-- Saved registers of the loongarch64 backend when a trap occurs
(`TrapFrame`): all general registers, PRMD and ERA. -/
structure TrapFrame where
  regs : GeneralRegisters
  prmd : Nat
  era : Nat

/-- `TrapFrame::arg0`: `self.regs.a0 as usize` (the cast is the identity). -/
def TrapFrame.arg0 (self : TrapFrame) : Nat := self.regs.a0

/-- `TrapFrame::arg1`: `self.regs.a1 as usize`. -/
def TrapFrame.arg1 (self : TrapFrame) : Nat := self.regs.a1

/-- `TrapFrame::arg2`: `self.regs.a2 as usize`. -/
def TrapFrame.arg2 (self : TrapFrame) : Nat := self.regs.a2

/-- `TrapFrame::arg3`: `self.regs.a3 as usize`. -/
def TrapFrame.arg3 (self : TrapFrame) : Nat := self.regs.a3

/-- `TrapFrame::arg4`: `self.regs.a4 as usize`. -/
def TrapFrame.arg4 (self : TrapFrame) : Nat := self.regs.a4

/-- `TrapFrame::arg5`: `self.regs.a5 as usize`. -/
def TrapFrame.arg5 (self : TrapFrame) : Nat := self.regs.a5

/-- Field name/value pairs of `GeneralRegisters`, in declaration order (the
order the derived `Debug` prints them). -/
def generalRegistersFields (r : GeneralRegisters) : List (String × Nat) :=
  [("zero", r.zero), ("ra", r.ra), ("tp", r.tp), ("sp", r.sp),
   ("a0", r.a0), ("a1", r.a1), ("a2", r.a2), ("a3", r.a3),
   ("a4", r.a4), ("a5", r.a5), ("a6", r.a6), ("a7", r.a7),
   ("t0", r.t0), ("t1", r.t1), ("t2", r.t2), ("t3", r.t3),
   ("t4", r.t4), ("t5", r.t5), ("t6", r.t6), ("t7", r.t7),
   ("t8", r.t8), ("u0", r.u0), ("fp", r.fp),
   ("s0", r.s0), ("s1", r.s1), ("s2", r.s2), ("s3", r.s3),
   ("s4", r.s4), ("s5", r.s5), ("s6", r.s6), ("s7", r.s7), ("s8", r.s8)]

/-- Output of the derived `Debug` for `GeneralRegisters` under the default
`{:?}` formatter: the struct name, braces, and `field: value` pairs in
declaration order with the integer values rendered in decimal (the derive
delegates to each field's `Debug`, which for `usize` without the
alternate/hex flags prints decimal digits). -/
def generalRegistersFmt (r : GeneralRegisters) : String :=
  "GeneralRegisters \x7b "
    ++ joinComma ((generalRegistersFields r).map
        (fun p => p.1 ++ ": " ++ toString p.2))
    ++ " \x7d"

/-- Output of the derived `Debug` for the loongarch64 `TrapFrame` under the
default `{:?}` formatter: the nested `regs` struct followed by `prmd` and
`era`, each field rendered as `name: value` with decimal integers. -/
def trapFrameFmt (tf : TrapFrame) : String :=
  "TrapFrame \x7b "
    ++ joinComma (("regs: " ++ generalRegistersFmt tf.regs)
        :: ([("prmd", tf.prmd), ("era", tf.era)].map
            (fun p => p.1 ++ ": " ++ toString p.2)))
    ++ " \x7d"

/-- Register name/value pairs of the loongarch64 trap frame: all general
registers, then `prmd` and `era`. -/
def trapFrameFields (tf : TrapFrame) : List (String × Nat) :=
  generalRegistersFields tf.regs ++ [("prmd", tf.prmd), ("era", tf.era)]

/-- `TaskContext::new` / `Default`: an all-zero context. -/
def TaskContext.new : TaskContext :=
  ⟨0, 0, fun _ => 0, 0, 0, FpuState.zero⟩

/-- `TaskContext::init(entry, kstack_top, tls_area)`: sets `sp`, `ra` and
`tp`; the source method is not feature-gated and writes `tp` unconditionally. -/
def TaskContext.init (self : TaskContext) (entry kstack_top tls_area : Nat) :
    TaskContext :=
  { self with sp := kstack_top, ra := entry, tp := tls_area }

/-- `TaskContext::set_page_table_root(pgdl)` (gated by `uspace` in the
source): overwrites only the page-table-root field. -/
def TaskContext.set_page_table_root (self : TaskContext) (pgdl : Nat) :
    TaskContext :=
  { self with pgdl := pgdl }

/-- Live CPU registers that the loongarch64 backend touches.  The ten static
registers moved by `context_switch` are grouped as `sreg` in the slot order of
that routine: index 0..8 = $s0..$s8 ($r23..$r31), index 9 = $fp ($r22);
`kernel_sp` is the kernel-stack-pointer CSR written by
`crate::asm::write_kernel_sp`. -/
structure Machine where
  ra : Nat
  sp : Nat
  tp : Nat
  sreg : Fin 10 → Nat
  fpu : FpuState
  pgdl : Nat
  kernel_sp : Nat

/-- The naked `context_switch` routine of the loongarch64 backend.  `STD r,
$a0, k` stores register r at word k of the save target and `LDD r, $a1, k`
loads word k of the restore source: words 0, 1 are `ra`, `sp`, words 2..10 are
$s0..$s8 (= `s[0]`..`s[8]`) and word 11 is $fp (= `s[9]`); the `tp` field
(word 12) is not touched. -/
def context_switch (current_task next_task : TaskContext) (m : Machine) :
    TaskContext × Machine :=
  let saved : TaskContext :=
    { current_task with ra := m.ra, sp := m.sp, s := m.sreg }
  let restored : Machine :=
    { m with sreg := next_task.s, sp := next_task.sp, ra := next_task.ra }
  (saved, restored)

/-- `TaskContext::switch_to(self, next_ctx)` of the loongarch64 backend.
Program order in the source: the `tls` block (save live $tp into `self`,
write `next_ctx.tp` to the live register); the `uspace` block, which first
unconditionally writes `next_ctx.sp` into the kernel-stack-pointer CSR and
then, iff the stored roots differ, installs `next_ctx.pgdl` and flushes the
entire TLB; the `fp-simd` block (save hardware FPU state into `self.fpu`,
restore `next_ctx.fpu` to hardware); then `context_switch`. -/
def switch_to (cfg : Config) (self next_ctx : TaskContext) (m : Machine) :
    TaskContext × Machine × List Event :=
  let s1 := if cfg.tls then { self with tp := m.tp } else self
  let m1 := if cfg.tls then { m with tp := next_ctx.tp } else m
  let t1 : List Event :=
    if cfg.tls then [Event.readTP, Event.writeTP next_ctx.tp] else []
  let m2 := if cfg.uspace then { m1 with kernel_sp := next_ctx.sp } else m1
  let m3 :=
    if cfg.uspace && (s1.pgdl != next_ctx.pgdl) then
      { m2 with pgdl := next_ctx.pgdl }
    else m2
  let t2 : List Event :=
    if cfg.uspace then
      Event.writeKernelSP next_ctx.sp ::
        (if s1.pgdl != next_ctx.pgdl then
          [Event.writeRoot next_ctx.pgdl, Event.flushTLB]
        else [])
    else []
  let s2 := if cfg.fpSimd then { s1 with fpu := m3.fpu } else s1
  let m4 := if cfg.fpSimd then { m3 with fpu := next_ctx.fpu } else m3
  let t3 : List Event :=
    if cfg.fpSimd then [Event.fpSave, Event.fpRestore] else []
  let r := context_switch s2 next_ctx m4
  (r.1, r.2, t1 ++ t2 ++ t3 ++ [Event.rawTransfer])

end LoongArch64

/-- Spec-level reading of "enumerates every register with its architectural
name and its value in hexadecimal": for every listed register, the substring
`name: 0xdigits` (the shape the `{:#x}` specifier produces) occurs in the
output. -/
def debugEnumeratesHex (out : String) (fields : List (String × Nat)) : Prop :=
  ∀ p ∈ fields, (p.1 ++ ": " ++ hexStr p.2).data <:+: out.data

/-- Variant of `debugEnumeratesHex` with the value rendered in decimal, the
default `Debug` rendering of `usize`. -/
def debugEnumeratesDec (out : String) (fields : List (String × Nat)) : Prop :=
  ∀ p ∈ fields, (p.1 ++ ": " ++ toString p.2).data <:+: out.data

/-- Claim C7 as stated: on both backends, the Debug formatting enumerates
every register of the trap frame — including the mode/status register and the
return-address register — with its name and its value in hexadecimal. -/
def c7Claimed : Prop :=
  (∀ tf : AArch64.TrapFrame,
      debugEnumeratesHex (AArch64.trapFrameFmt tf) (AArch64.trapFrameFields tf))
    ∧ ∀ tf : LoongArch64.TrapFrame,
        debugEnumeratesHex (LoongArch64.trapFrameFmt tf) (LoongArch64.trapFrameFields tf)

/-- Modelled from claim C3's words, for comparison with the code: the event
order asserted by the claim — thread-pointer events first, extended-register
events second, the conditional root install and full flush third, the raw
transfer last — instantiated with the loongarch64 context fields. -/
def claimedEventsLoong (cfg : Config) (self next_ctx : LoongArch64.TaskContext) :
    List Event :=
  (if cfg.tls then [Event.readTP, Event.writeTP next_ctx.tp] else [])
    ++ (if cfg.fpSimd then [Event.fpSave, Event.fpRestore] else [])
    ++ (if cfg.uspace && (self.pgdl != next_ctx.pgdl) then
          [Event.writeRoot next_ctx.pgdl, Event.flushTLB]
        else [])
    ++ [Event.rawTransfer]

/-- All three features enabled. -/
def cfgAll : Config := ⟨true, true, true⟩

/-- Only address-space isolation enabled. -/
def cfgU : Config := ⟨false, false, true⟩

/-- Sample live aarch64 machine: x19..x30 hold 19..30, sp = 100, the
thread-pointer register holds 2, the FP file is zero, the root is 0. -/
def sampleMachineA : AArch64.Machine :=
  ⟨19, 20, 21, 22, 23, 24, 25, 26, 27, 28, 29, 30, 100, 2, AArch64.FpState.zero, 0⟩

/-- Zeroed aarch64 context with thread-pointer field 7. -/
def sampleCtxTp7 : AArch64.TaskContext :=
  { AArch64.TaskContext.new with tpidr_el0 := 7 }

/-- First half of an aarch64 round trip on the samples: A→B with both
contexts freshly zeroed, starting from `sampleMachineA`. -/
def aRoundTrip1 : AArch64.TaskContext × AArch64.Machine × List Event :=
  AArch64.switch_to cfgAll AArch64.TaskContext.new AArch64.TaskContext.new
    sampleMachineA

/-- Second half of the round trip: B→A, where `self` is B (unchanged by the
first switch) and `next` is the context the first switch saved for A. -/
def aRoundTrip2 : AArch64.TaskContext × AArch64.Machine × List Event :=
  AArch64.switch_to cfgAll AArch64.TaskContext.new aRoundTrip1.1 aRoundTrip1.2.1

/-- Sample live loongarch64 machine: ra = 1, sp = 100, the thread-pointer
register holds 2, static registers hold 10..19 in slot order, zero FPU state,
root 0, kernel-sp CSR 0. -/
def sampleMachineL : LoongArch64.Machine :=
  ⟨1, 100, 2, fun i => 10 + i.1, LoongArch64.FpuState.zero, 0, 0⟩

/-- Zeroed loongarch64 context (stored root 0). -/
def lCtxRoot0 : LoongArch64.TaskContext := LoongArch64.TaskContext.new

/-- Loongarch64 context with sp = 55, tp = 3 and stored root 1. -/
def lCtxRoot1 : LoongArch64.TaskContext :=
  { LoongArch64.TaskContext.new with sp := 55, tp := 3, pgdl := 1 }

/-- Loongarch64 general registers all zero except a0 = 255. -/
def sampleGeneralRegisters : LoongArch64.GeneralRegisters :=
  ⟨0, 0, 0, 0, 255, 0, 0, 0, 0, 0, 0, 0, 0, 0, 0, 0, 0, 0, 0, 0, 0, 0, 0,
    0, 0, 0, 0, 0, 0, 0, 0, 0⟩

/-- Loongarch64 trap frame holding `sampleGeneralRegisters`, prmd = 0 and
era = 0. -/
def sampleLoongFrame : LoongArch64.TrapFrame := ⟨sampleGeneralRegisters, 0, 0⟩

/-- Transitivity of substring occurrence on character lists. -/
lemma occursTrans {l1 l2 l3 : List Char} (h1 : l1 <:+: l2) (h2 : l2 <:+: l3) :
    l1 <:+: l3 := by
  obtain ⟨s, t, hst⟩ := h1
  obtain ⟨u, v, huv⟩ := h2
  refine ⟨u ++ s, t ++ v, ?_⟩
  subst hst
  subst huv
  simp

/-- A member of a string list occurs in the concatenation of the list. -/
lemma occursOfMemConcatAll (s : String) :
    ∀ l : List String, s ∈ l → s.data <:+: (concatAll l).data
  | [], h => absurd h (List.not_mem_nil s)
  | a :: as, h => by
    rcases List.mem_cons.mp h with rfl | h2
    · exact ⟨[], (concatAll as).data, by simp [concatAll, String.data_append]⟩
    · obtain ⟨u, v, huv⟩ := occursOfMemConcatAll s as h2
      exact ⟨a.data ++ u, v, by simp [concatAll, String.data_append, ← huv]⟩

/-- A member of a string list occurs in its comma-separated join. -/
lemma occursOfMemJoinComma (s : String) :
    ∀ l : List String, s ∈ l → s.data <:+: (joinComma l).data
  | [], h => absurd h (List.not_mem_nil s)
  | [a], h => by
    rcases List.mem_cons.mp h with rfl | h2
    · exact ⟨[], [], by simp [joinComma]⟩
    · exact absurd h2 (List.not_mem_nil s)
  | a :: b :: as, h => by
    rcases List.mem_cons.mp h with rfl | h2
    · exact ⟨[], (", " ++ joinComma (b :: as)).data,
        by simp [joinComma, String.data_append]⟩
    · obtain ⟨u, v, huv⟩ := occursOfMemJoinComma s (b :: as) h2
      exact ⟨(a ++ ", ").data ++ u, v,
        by simp [joinComma, String.data_append, ← huv]⟩

/-- Event trace of the aarch64 `switch_to`, written out: thread-pointer
events, extended-register events, conditional root install and flush, raw
transfer — in that order, with the root condition on the stored roots of the
two contexts. -/
lemma aarch64TraceEq (cfg : Config) (a b : AArch64.TaskContext)
    (m : AArch64.Machine) :
    (AArch64.switch_to cfg a b m).2.2 =
      (if cfg.tls then [Event.readTP, Event.writeTP b.tpidr_el0] else [])
        ++ (if cfg.fpSimd then [Event.fpSave, Event.fpRestore] else [])
        ++ (if cfg.uspace && (a.ttbr0_el1 != b.ttbr0_el1) then
              [Event.writeRoot b.ttbr0_el1, Event.flushTLB]
            else [])
        ++ [Event.rawTransfer] := by
  obtain ⟨t, f, u⟩ := cfg
  cases t <;> cases f <;> rfl

/-- Event trace of the loongarch64 `switch_to`, written out: thread-pointer
events; then, under `uspace`, the unconditional kernel-sp write followed by
the conditional root install and flush; then extended-register events; then
the raw transfer. -/
lemma loongTraceEq (cfg : Config) (la lb : LoongArch64.TaskContext)
    (m : LoongArch64.Machine) :
    (LoongArch64.switch_to cfg la lb m).2.2 =
      (if cfg.tls then [Event.readTP, Event.writeTP lb.tp] else [])
        ++ (if cfg.uspace then
              Event.writeKernelSP lb.sp ::
                (if la.pgdl != lb.pgdl then
                  [Event.writeRoot lb.pgdl, Event.flushTLB]
                else [])
            else [])
        ++ (if cfg.fpSimd then [Event.fpSave, Event.fpRestore] else [])
        ++ [Event.rawTransfer] := by
  obtain ⟨t, f, u⟩ := cfg
  cases t <;> rfl

/-- C5: after `init(entry, kstack_top, tls_area)` on a zeroed context, the
return-address field equals `entry`, the stack-pointer field equals
`kstack_top`, the thread-pointer field equals `tls_area`, and every other
field — all callee-saved registers, the address-space root and the extended
state — is still zero, on both backends. -/
theorem c5_init_isolates_fields (entry kstack_top tls_area : Nat) :
    ((AArch64.TaskContext.new.init entry kstack_top tls_area).lr = entry
      ∧ (AArch64.TaskContext.new.init entry kstack_top tls_area).sp = kstack_top
      ∧ (AArch64.TaskContext.new.init entry kstack_top tls_area).tpidr_el0 = tls_area
      ∧ (AArch64.TaskContext.new.init entry kstack_top tls_area).r19 = 0
      ∧ (AArch64.TaskContext.new.init entry kstack_top tls_area).r20 = 0
      ∧ (AArch64.TaskContext.new.init entry kstack_top tls_area).r21 = 0
      ∧ (AArch64.TaskContext.new.init entry kstack_top tls_area).r22 = 0
      ∧ (AArch64.TaskContext.new.init entry kstack_top tls_area).r23 = 0
      ∧ (AArch64.TaskContext.new.init entry kstack_top tls_area).r24 = 0
      ∧ (AArch64.TaskContext.new.init entry kstack_top tls_area).r25 = 0
      ∧ (AArch64.TaskContext.new.init entry kstack_top tls_area).r26 = 0
      ∧ (AArch64.TaskContext.new.init entry kstack_top tls_area).r27 = 0
      ∧ (AArch64.TaskContext.new.init entry kstack_top tls_area).r28 = 0
      ∧ (AArch64.TaskContext.new.init entry kstack_top tls_area).r29 = 0
      ∧ (AArch64.TaskContext.new.init entry kstack_top tls_area).ttbr0_el1 = 0
      ∧ (AArch64.TaskContext.new.init entry kstack_top tls_area).fp_state
          = AArch64.FpState.zero)
    ∧ ((LoongArch64.TaskContext.new.init entry kstack_top tls_area).ra = entry
      ∧ (LoongArch64.TaskContext.new.init entry kstack_top tls_area).sp = kstack_top
      ∧ (LoongArch64.TaskContext.new.init entry kstack_top tls_area).tp = tls_area
      ∧ (LoongArch64.TaskContext.new.init entry kstack_top tls_area).s = (fun _ => 0)
      ∧ (LoongArch64.TaskContext.new.init entry kstack_top tls_area).pgdl = 0
      ∧ (LoongArch64.TaskContext.new.init entry kstack_top tls_area).fpu
          = LoongArch64.FpuState.zero) :=
  ⟨⟨rfl, rfl, rfl, rfl, rfl, rfl, rfl, rfl, rfl, rfl, rfl, rfl, rfl, rfl, rfl,
    rfl⟩, rfl, rfl, rfl, rfl, rfl, rfl⟩

/-- C9: on any starting context (not only a zeroed one), `init` writes only
the stack-pointer, return-address and thread-pointer fields; every
callee-saved register field, the address-space-root field and the extended
state keep their prior values — and `init` is not feature-gated in the
source, so the thread-pointer field is written in every build. -/
theorem c9_init_frame_effect (a : AArch64.TaskContext)
    (l : LoongArch64.TaskContext) (entry kstack_top tls_area : Nat) :
    ((a.init entry kstack_top tls_area).lr = entry
      ∧ (a.init entry kstack_top tls_area).sp = kstack_top
      ∧ (a.init entry kstack_top tls_area).tpidr_el0 = tls_area
      ∧ (a.init entry kstack_top tls_area).r19 = a.r19
      ∧ (a.init entry kstack_top tls_area).r20 = a.r20
      ∧ (a.init entry kstack_top tls_area).r21 = a.r21
      ∧ (a.init entry kstack_top tls_area).r22 = a.r22
      ∧ (a.init entry kstack_top tls_area).r23 = a.r23
      ∧ (a.init entry kstack_top tls_area).r24 = a.r24
      ∧ (a.init entry kstack_top tls_area).r25 = a.r25
      ∧ (a.init entry kstack_top tls_area).r26 = a.r26
      ∧ (a.init entry kstack_top tls_area).r27 = a.r27
      ∧ (a.init entry kstack_top tls_area).r28 = a.r28
      ∧ (a.init entry kstack_top tls_area).r29 = a.r29
      ∧ (a.init entry kstack_top tls_area).ttbr0_el1 = a.ttbr0_el1
      ∧ (a.init entry kstack_top tls_area).fp_state = a.fp_state)
    ∧ ((l.init entry kstack_top tls_area).ra = entry
      ∧ (l.init entry kstack_top tls_area).sp = kstack_top
      ∧ (l.init entry kstack_top tls_area).tp = tls_area
      ∧ (l.init entry kstack_top tls_area).s = l.s
      ∧ (l.init entry kstack_top tls_area).pgdl = l.pgdl
      ∧ (l.init entry kstack_top tls_area).fpu = l.fpu) :=
  ⟨⟨rfl, rfl, rfl, rfl, rfl, rfl, rfl, rfl, rfl, rfl, rfl, rfl, rfl, rfl, rfl,
    rfl⟩, rfl, rfl, rfl, rfl, rfl, rfl⟩

/-- C8: `set_page_table_root(addr)` sets the address-space-root field to
`addr` and leaves every other field of the context unchanged, on both
backends. -/
theorem c8_set_page_table_root_only (a : AArch64.TaskContext)
    (l : LoongArch64.TaskContext) (addr : Nat) :
    ((a.set_page_table_root addr).ttbr0_el1 = addr
      ∧ (a.set_page_table_root addr).sp = a.sp
      ∧ (a.set_page_table_root addr).tpidr_el0 = a.tpidr_el0
      ∧ (a.set_page_table_root addr).r19 = a.r19
      ∧ (a.set_page_table_root addr).r20 = a.r20
      ∧ (a.set_page_table_root addr).r21 = a.r21
      ∧ (a.set_page_table_root addr).r22 = a.r22
      ∧ (a.set_page_table_root addr).r23 = a.r23
      ∧ (a.set_page_table_root addr).r24 = a.r24
      ∧ (a.set_page_table_root addr).r25 = a.r25
      ∧ (a.set_page_table_root addr).r26 = a.r26
      ∧ (a.set_page_table_root addr).r27 = a.r27
      ∧ (a.set_page_table_root addr).r28 = a.r28
      ∧ (a.set_page_table_root addr).r29 = a.r29
      ∧ (a.set_page_table_root addr).lr = a.lr
      ∧ (a.set_page_table_root addr).fp_state = a.fp_state)
    ∧ ((l.set_page_table_root addr).pgdl = addr
      ∧ (l.set_page_table_root addr).ra = l.ra
      ∧ (l.set_page_table_root addr).sp = l.sp
      ∧ (l.set_page_table_root addr).s = l.s
      ∧ (l.set_page_table_root addr).tp = l.tp
      ∧ (l.set_page_table_root addr).fpu = l.fpu) :=
  ⟨⟨rfl, rfl, rfl, rfl, rfl, rfl, rfl, rfl, rfl, rfl, rfl, rfl, rfl, rfl, rfl,
    rfl⟩, rfl, rfl, rfl, rfl, rfl, rfl⟩

/-- C6: for a trap frame built from arbitrary register values, each accessor
`arg0`..`arg5` returns exactly the value placed in the architecturally
designated argument register — `r[0]`..`r[5]` on aarch64, `a0`..`a5` on
loongarch64 — whatever the other fields hold; the accessors are pure
projections of the frame (they take the frame by shared reference in the
source and are modelled as functions here). -/
theorem c6_arg_accessors (v : Fin 31 → Nat) (usp elr spsr : Nat)
    (g : LoongArch64.GeneralRegisters) (prmd era : Nat) :
    ((AArch64.TrapFrame.mk v usp elr spsr).arg0 = v 0
      ∧ (AArch64.TrapFrame.mk v usp elr spsr).arg1 = v 1
      ∧ (AArch64.TrapFrame.mk v usp elr spsr).arg2 = v 2
      ∧ (AArch64.TrapFrame.mk v usp elr spsr).arg3 = v 3
      ∧ (AArch64.TrapFrame.mk v usp elr spsr).arg4 = v 4
      ∧ (AArch64.TrapFrame.mk v usp elr spsr).arg5 = v 5)
    ∧ ((LoongArch64.TrapFrame.mk g prmd era).arg0 = g.a0
      ∧ (LoongArch64.TrapFrame.mk g prmd era).arg1 = g.a1
      ∧ (LoongArch64.TrapFrame.mk g prmd era).arg2 = g.a2
      ∧ (LoongArch64.TrapFrame.mk g prmd era).arg3 = g.a3
      ∧ (LoongArch64.TrapFrame.mk g prmd era).arg4 = g.a4
      ∧ (LoongArch64.TrapFrame.mk g prmd era).arg5 = g.a5) :=
  ⟨⟨rfl, rfl, rfl, rfl, rfl, rfl⟩, rfl, rfl, rfl, rfl, rfl, rfl⟩

/-- C1 evaluated at a failing input: on aarch64 with all features enabled,
live thread pointer 2 and live x20 = 20, switching A→B and then B→A leaves
the live thread-pointer register holding 20 — the old x20 value, which
`context_switch`'s `stp x19, x20, [x0]` stored into A's `tpidr_el0` field
(word 1) on the first switch — instead of A's pre-switch thread pointer 2.
The callee-saved registers and the stack pointer are restored as claimed. -/
theorem c1_roundtrip_thread_pointer_lost :
    aRoundTrip2.2.1.tpidr_el0 = 20
      ∧ sampleMachineA.tpidr_el0 = 2
      ∧ sampleMachineA.x20 = 20
      ∧ aRoundTrip2.2.1.x19 = sampleMachineA.x19
      ∧ aRoundTrip2.2.1.x29 = sampleMachineA.x29
      ∧ aRoundTrip2.2.1.sp = sampleMachineA.sp :=
  ⟨rfl, rfl, rfl, rfl, rfl, rfl⟩

/-- C2 evaluated at a failing input: the aarch64 raw transfer, run on a
save-target whose thread-pointer field holds 7 and a machine whose x20 holds
20, leaves the save-target's thread-pointer field equal to 20 — the second
register of `stp x19, x20, [x0]` lands on word 1, the `tpidr_el0` field — so
the raw transfer does not leave that field unchanged. -/
theorem c2_raw_transfer_writes_tp_field :
    (AArch64.context_switch sampleCtxTp7 AArch64.TaskContext.new
        sampleMachineA).1.tpidr_el0 = 20
      ∧ sampleCtxTp7.tpidr_el0 = 7
      ∧ sampleMachineA.x20 = 20 :=
  ⟨rfl, rfl, rfl⟩

/-- C3 counterexample: on loongarch64 with all features enabled and differing
stored roots, the event trace of `switch_to` is not the claimed
tls–fp–uspace–transfer order (the uspace block, including its unconditional
kernel-sp write, runs before the extended-register block). -/
theorem c3_counterexample :
    (LoongArch64.switch_to cfgAll lCtxRoot0 lCtxRoot1 sampleMachineL).2.2
      ≠ claimedEventsLoong cfgAll lCtxRoot0 lCtxRoot1 := by
  decide

/-- C3 (amended): aarch64 `switch_to` performs, in order, the thread-pointer
events, the extended-register events, the conditional root install and full
flush, and the raw transfer; loongarch64 `switch_to` performs the
thread-pointer events, then — whenever address-space isolation is enabled —
an unconditional write of `next`'s stored stack pointer to the
kernel-stack-pointer register followed by the conditional root install and
full flush, then the extended-register events, then the raw transfer. -/
theorem c3_amended_switch_order (cfg : Config) (a b : AArch64.TaskContext)
    (ma : AArch64.Machine) (la lb : LoongArch64.TaskContext)
    (ml : LoongArch64.Machine) :
    ((AArch64.switch_to cfg a b ma).2.2 =
        (if cfg.tls then [Event.readTP, Event.writeTP b.tpidr_el0] else [])
          ++ (if cfg.fpSimd then [Event.fpSave, Event.fpRestore] else [])
          ++ (if cfg.uspace && (a.ttbr0_el1 != b.ttbr0_el1) then
                [Event.writeRoot b.ttbr0_el1, Event.flushTLB]
              else [])
          ++ [Event.rawTransfer])
      ∧ ((LoongArch64.switch_to cfg la lb ml).2.2 =
          (if cfg.tls then [Event.readTP, Event.writeTP lb.tp] else [])
            ++ (if cfg.uspace then
                  Event.writeKernelSP lb.sp ::
                    (if la.pgdl != lb.pgdl then
                      [Event.writeRoot lb.pgdl, Event.flushTLB]
                    else [])
                else [])
            ++ (if cfg.fpSimd then [Event.fpSave, Event.fpRestore] else [])
            ++ [Event.rawTransfer]) :=
  ⟨aarch64TraceEq cfg a b ma, loongTraceEq cfg la lb ml⟩

/-- C4: with address-space isolation enabled, a switch between contexts with
equal stored roots performs no hardware root reload and no translation-cache
flush, and a switch between contexts with differing stored roots performs
exactly one of each — on both backends. -/
theorem c4_root_change_exactly_one_flush (cfg : Config)
    (a b : AArch64.TaskContext) (ma : AArch64.Machine)
    (la lb : LoongArch64.TaskContext) (ml : LoongArch64.Machine)
    (hus : cfg.uspace = true) :
    ((AArch64.switch_to cfg a b ma).2.2.countP Event.isRootWrite
        = if a.ttbr0_el1 = b.ttbr0_el1 then 0 else 1)
      ∧ ((AArch64.switch_to cfg a b ma).2.2.countP Event.isFlush
        = if a.ttbr0_el1 = b.ttbr0_el1 then 0 else 1)
      ∧ ((LoongArch64.switch_to cfg la lb ml).2.2.countP Event.isRootWrite
        = if la.pgdl = lb.pgdl then 0 else 1)
      ∧ ((LoongArch64.switch_to cfg la lb ml).2.2.countP Event.isFlush
        = if la.pgdl = lb.pgdl then 0 else 1) := by
  obtain ⟨t, f, u⟩ := cfg
  replace hus : u = true := hus
  subst hus
  cases t <;> cases f <;>
    by_cases hA : a.ttbr0_el1 = b.ttbr0_el1 <;>
    by_cases hL : la.pgdl = lb.pgdl <;>
    simp [aarch64TraceEq, loongTraceEq, hA, hL, bne_iff_ne,
      Event.isRootWrite, Event.isFlush, List.countP_append, List.countP_cons]

/-- C4 witness: with only `uspace` enabled, equal-root aarch64 contexts and
differing-root loongarch64 contexts instantiate the theorem. -/
theorem c4_witness :
    cfgU.uspace = true
      ∧ (((AArch64.switch_to cfgU AArch64.TaskContext.new
              AArch64.TaskContext.new sampleMachineA).2.2.countP
              Event.isRootWrite
            = if AArch64.TaskContext.new.ttbr0_el1
                = AArch64.TaskContext.new.ttbr0_el1 then 0 else 1)
          ∧ ((AArch64.switch_to cfgU AArch64.TaskContext.new
              AArch64.TaskContext.new sampleMachineA).2.2.countP Event.isFlush
            = if AArch64.TaskContext.new.ttbr0_el1
                = AArch64.TaskContext.new.ttbr0_el1 then 0 else 1)
          ∧ ((LoongArch64.switch_to cfgU lCtxRoot0 lCtxRoot1
              sampleMachineL).2.2.countP Event.isRootWrite
            = if lCtxRoot0.pgdl = lCtxRoot1.pgdl then 0 else 1)
          ∧ ((LoongArch64.switch_to cfgU lCtxRoot0 lCtxRoot1
              sampleMachineL).2.2.countP Event.isFlush
            = if lCtxRoot0.pgdl = lCtxRoot1.pgdl then 0 else 1)) :=
  ⟨rfl, c4_root_change_exactly_one_flush cfgU AArch64.TaskContext.new
    AArch64.TaskContext.new sampleMachineA lCtxRoot0 lCtxRoot1 sampleMachineL
    rfl⟩

/-- C10: on loongarch64 with address-space isolation enabled, every
`switch_to` writes `next`'s stored stack pointer into the
kernel-stack-pointer hardware register — unconditionally, in particular also
when the two stored roots are equal. -/
theorem c10_kernel_sp_unconditional (cfg : Config)
    (la lb : LoongArch64.TaskContext) (ml : LoongArch64.Machine)
    (hus : cfg.uspace = true) :
    (LoongArch64.switch_to cfg la lb ml).2.1.kernel_sp = lb.sp
      ∧ Event.writeKernelSP lb.sp ∈ (LoongArch64.switch_to cfg la lb ml).2.2 := by
  obtain ⟨t, f, u⟩ := cfg
  replace hus : u = true := hus
  subst hus
  constructor
  · cases t <;> cases f <;>
      by_cases hL : la.pgdl = lb.pgdl <;>
      simp [LoongArch64.switch_to, LoongArch64.context_switch, hL, bne_iff_ne]
  · rw [loongTraceEq]
    simp

/-- C10 witness: instantiated with equal-root contexts (`lCtxRoot1` on both
sides), where no root reload or flush occurs, the kernel-sp write still
happens. -/
theorem c10_witness :
    cfgU.uspace = true
      ∧ ((LoongArch64.switch_to cfgU lCtxRoot1 lCtxRoot1
            sampleMachineL).2.1.kernel_sp = lCtxRoot1.sp
        ∧ Event.writeKernelSP lCtxRoot1.sp ∈
            (LoongArch64.switch_to cfgU lCtxRoot1 lCtxRoot1
              sampleMachineL).2.2) :=
  ⟨rfl, c10_kernel_sp_unconditional cfgU lCtxRoot1 lCtxRoot1 sampleMachineL rfl⟩

/-- C7 counterexample: the loongarch64 `TrapFrame` uses the derived `Debug`,
which renders values in decimal under the default formatter; for the sample
frame with `a0 = 255`, the hexadecimal rendering `a0: 0xff` does not occur in
the output, so the claim as stated is false. -/
theorem c7_counterexample : ¬ c7Claimed := by
  intro h
  have h2 := h.2 sampleLoongFrame ("a0", 255) (by decide)
  exact absurd h2 (by decide)

/-- C7 (amended): the hand-written aarch64 `Debug` impl enumerates every
register — r0..r30, usp, elr and spsr — with its architectural name and its
value rendered in hexadecimal; the loongarch64 `TrapFrame`'s derived `Debug`
enumerates every register field (all general registers, prmd and era) with
its architectural name, but renders the values with the default decimal
`Debug` formatting of `usize` rather than in hexadecimal. -/
theorem c7_amended_debug_enumeration :
    (∀ tf : AArch64.TrapFrame,
        debugEnumeratesHex (AArch64.trapFrameFmt tf) (AArch64.trapFrameFields tf))
      ∧ ∀ tf : LoongArch64.TrapFrame,
          debugEnumeratesDec (LoongArch64.trapFrameFmt tf)
            (LoongArch64.trapFrameFields tf) := by
  constructor
  · intro tf p hp
    have h1 : (p.1 ++ ": " ++ hexStr p.2).data
        <:+: ("    " ++ p.1 ++ ": " ++ hexStr p.2 ++ ",\n").data :=
      ⟨"    ".data, ",\n".data, by simp [String.data_append]⟩
    have h2 : ("    " ++ p.1 ++ ": " ++ hexStr p.2 ++ ",\n")
        ∈ (AArch64.trapFrameFields tf).map
            (fun q => "    " ++ q.1 ++ ": " ++ hexStr q.2 ++ ",\n") :=
      List.mem_map_of_mem _ hp
    have h3 := occursOfMemConcatAll _ _ h2
    have h4 : (concatAll ((AArch64.trapFrameFields tf).map
          (fun q => "    " ++ q.1 ++ ": " ++ hexStr q.2 ++ ",\n"))).data
        <:+: (AArch64.trapFrameFmt tf).data :=
      ⟨("TrapFrame: \x7b\n").data, ("\x7d").data,
        by simp [AArch64.trapFrameFmt, String.data_append]⟩
    exact occursTrans h1 (occursTrans h3 h4)
  · intro tf p hp
    have h8 : (joinComma (("regs: " ++ LoongArch64.generalRegistersFmt tf.regs)
          :: ([("prmd", tf.prmd), ("era", tf.era)].map
              (fun q => q.1 ++ ": " ++ toString q.2)))).data
        <:+: (LoongArch64.trapFrameFmt tf).data :=
      ⟨("TrapFrame \x7b ").data, (" \x7d").data,
        by simp [LoongArch64.trapFrameFmt, String.data_append]⟩
    rcases List.mem_append.mp hp with hg | hpe
    · have h2 : (p.1 ++ ": " ++ toString p.2)
          ∈ (LoongArch64.generalRegistersFields tf.regs).map
              (fun q => q.1 ++ ": " ++ toString q.2) :=
        List.mem_map_of_mem _ hg
      have h3 := occursOfMemJoinComma _ _ h2
      have h4 : (joinComma ((LoongArch64.generalRegistersFields tf.regs).map
            (fun q => q.1 ++ ": " ++ toString q.2))).data
          <:+: (LoongArch64.generalRegistersFmt tf.regs).data :=
        ⟨("GeneralRegisters \x7b ").data, (" \x7d").data,
          by simp [LoongArch64.generalRegistersFmt, String.data_append]⟩
      have h5 : (LoongArch64.generalRegistersFmt tf.regs).data
          <:+: ("regs: " ++ LoongArch64.generalRegistersFmt tf.regs).data :=
        ⟨("regs: ").data, [], by simp [String.data_append]⟩
      have h6 : ("regs: " ++ LoongArch64.generalRegistersFmt tf.regs)
          ∈ ("regs: " ++ LoongArch64.generalRegistersFmt tf.regs)
              :: ([("prmd", tf.prmd), ("era", tf.era)].map
                  (fun q => q.1 ++ ": " ++ toString q.2)) :=
        List.mem_cons_self _ _
      have h7 := occursOfMemJoinComma _ _ h6
      exact occursTrans h3 (occursTrans h4 (occursTrans h5 (occursTrans h7 h8)))
    · have h2 : (p.1 ++ ": " ++ toString p.2)
          ∈ ("regs: " ++ LoongArch64.generalRegistersFmt tf.regs)
              :: ([("prmd", tf.prmd), ("era", tf.era)].map
                  (fun q => q.1 ++ ": " ++ toString q.2)) :=
        List.mem_cons_of_mem _ (List.mem_map_of_mem _ hpe)
      have h3 := occursOfMemJoinComma _ _ h2
      exact occursTrans h3 h8

/-- C7 witness: the register `a0` of the sample loongarch64 frame is listed
and its decimal rendering occurs in the derived Debug output. -/
theorem c7_witness :
    (("a0", 255) ∈ LoongArch64.trapFrameFields sampleLoongFrame)
      ∧ ("a0" ++ ": " ++ toString 255).data
          <:+: (LoongArch64.trapFrameFmt sampleLoongFrame).data :=
  ⟨by decide,
    c7_amended_debug_enumeration.2 sampleLoongFrame ("a0", 255) (by decide)⟩

end Axcpu
